import Mathlib

/-!
Shallow embedding of the Htf- repository (dhan_data_fetcher.py,
streamlit_app.py) and verification of the frozen claims about it.

Conventions of the embedding:
* JSON scalar values are modelled by the type Val; a pandas NaN cell is
  the constructor Val.nan; a timezone-aware pandas timestamp that has been
  converted to Asia/Kolkata is Val.tsIST with its epoch-seconds instant
  (Asia/Kolkata is a fixed UTC+5:30 offset, so the instant determines the
  converted value).
* A pandas DataFrame is modelled column-major: a list of named columns plus
  an optional index (none models the default RangeIndex, some l models an
  index set from a column by set_index).
* Python exceptions and undecodable bodies are modelled explicitly:
  NetResult.exn stands for any exception raised by the requests call, and
  a response body of Option ApiResponse with none standing for a body on
  which response.json() raises.  Every except-branch of the source maps
  these to the failure dictionary the source returns.
* Machine floats of the source carry exact market prices here as rationals;
  none of the verified claims depends on rounding.
-/

namespace Htf

/-- Scalar cell values that occur in provider payloads and data frames. -/
inductive Val where
  | num (q : ℚ)
  | str (s : String)
  | tsIST (epoch : ℚ)
  | nan
  deriving DecidableEq, Repr

/-- Lookup of a key in an association list, modelling Python dict access
and pandas column access by name (first binding wins, as in a dict that
cannot hold duplicate keys). -/
def lookupKey {α : Type} (key : String) : List (String × α) → Option α
  | [] => none
  | kv :: rest => if kv.1 = key then some kv.2 else lookupKey key rest

/-- Column-major model of a pandas DataFrame: named columns and an optional
index (none is the default RangeIndex; some l is an index installed by
set_index). -/
structure DataFrame where
  cols : List (String × List Val)
  index : Option (List Val)
  deriving DecidableEq, Repr

/-- Column names of the frame, in order (df.columns). -/
def DataFrame.colNames (df : DataFrame) : List String :=
  df.cols.map Prod.fst

/-- Number of rows, the Python len(df): the index length once an index is
set, otherwise the length of the first column (0 for an empty frame). -/
def DataFrame.nrows (df : DataFrame) : Nat :=
  match df.index with
  | some idx => idx.length
  | none =>
    match df.cols with
    | [] => 0
    | c :: _ => c.2.length

/-- Accumulate the keys of one row record that are not already present,
preserving first-appearance order. -/
def insertKeys (acc : List String) (r : List (String × Val)) : List String :=
  r.foldl (fun a kv => if kv.1 ∈ a then a else a ++ [kv.1]) acc

/-- Union of the keys of a list of row records, in order of first
appearance: the column order pd.DataFrame assigns to a list of dicts. -/
def keysUnion (rows : List (List (String × Val))) : List String :=
  rows.foldl insertKeys []

/-- Embedding of pd.DataFrame applied to a list of row records: columns are
the keys in order of first appearance, a missing key in a row yields NaN. -/
def DataFrame.ofRecords (rows : List (List (String × Val))) : DataFrame :=
  { cols := (keysUnion rows).map
      (fun k => (k, rows.map (fun r => (lookupKey k r).getD .nan))),
    index := none }

/-- Embedding of pd.DataFrame applied to a dict of parallel columnar
arrays; unequal column lengths raise ValueError in pandas, modelled by
none. -/
def DataFrame.ofColumns (cs : List (String × List Val)) : Option DataFrame :=
  match cs with
  | [] => some { cols := [], index := none }
  | c :: rest =>
    if rest.all (fun d => d.2.length = c.2.length) then
      some { cols := c :: rest, index := none }
    else
      none

/-- The candle collection inside a decoded payload: either an array of row
records or a dict of parallel columnar arrays. -/
inductive CandleData where
  | recs (rows : List (List (String × Val)))
  | cols (cs : List (String × List Val))
  deriving DecidableEq, Repr

/-- Python len applied to the candle collection: number of rows for a list,
number of keys for a dict. -/
def CandleData.len : CandleData → Nat
  | .recs rows => rows.length
  | .cols cs => cs.length

/-- The pd.DataFrame constructor call of line 101, on either shape. -/
def CandleData.toDF : CandleData → Option DataFrame
  | .recs rows => some (DataFrame.ofRecords rows)
  | .cols cs => DataFrame.ofColumns cs

/-- Decoded JSON body of a provider response, restricted to the fields the
source reads: the status / errorCode / message markers and the mapping of
top-level keys to candle collections. -/
structure ApiResponse where
  status : Option String
  errorCode : Option String
  message : Option String
  fields : List (String × CandleData)
  deriving DecidableEq, Repr

/-- Python truthiness of data.get of the errorCode field: absent or empty
is falsy, any other string is truthy. -/
def truthyCode : Option String → Bool
  | none => false
  | some s => s != ""

/-- Argument-default string of data.get for the message, line 96:
message, else errorCode, else the fixed fallback text. -/
def apiMsg (d : ApiResponse) : String :=
  d.message.getD (d.errorCode.getD "Unknown error")

/-- Outcome of the requests.post call: exn models any raised exception
(timeouts included), response carries the HTTP status code, the decoded
body (none when response.json() raises) and the raw text. -/
inductive NetResult where
  | exn (msg : String)
  | response (statusCode : Nat) (body : Option ApiResponse) (text : String)
  deriving DecidableEq, Repr

/-- Result dictionary of fetch_intraday_data; absent keys are none. -/
structure FetchResult where
  success : Bool
  error : Option String
  data : Option DataFrame
  instrument : Option String
  deriving DecidableEq, Repr

/-- Failure dictionary with only success and error keys. -/
def failRes (e : String) : FetchResult :=
  { success := false, error := some e, data := none, instrument := none }

/-- Configured instrument map of DhanDataFetcher (keys only; the routing
attributes are not read by any verified claim). -/
def instruments : List String := ["NIFTY", "BANKNIFTY", "SENSEX"]

/-- Embedding of pd.to_datetime with unit seconds and utc, then tz_convert
to Asia/Kolkata, on one cell: a number becomes an IST timestamp at that
instant, NaN becomes NaT (kept as nan), anything else raises. -/
def toDatetimeIST : Val → Option Val
  | .num q => some (.tsIST q)
  | .nan => some .nan
  | _ => none

/-- Cell-wise timestamp conversion of a whole column; none when any cell
raises. -/
def convertCol : List Val → Option (List Val)
  | [] => some []
  | v :: rest =>
    match toDatetimeIST v, convertCol rest with
    | some w, some ws => some (w :: ws)
    | _, _ => none

/-- Lines 104 to 107: when a column named timestamp exists (checked before
the lowercase rename), convert it and install it as the index, removing the
column; otherwise leave the frame unchanged. -/
def applyTimestamp (df : DataFrame) : Option DataFrame :=
  match lookupKey "timestamp" df.cols with
  | none => some df
  | some vs =>
    match convertCol vs with
    | none => none
    | some vs2 =>
      some { cols := df.cols.filter (fun c => c.1 ≠ "timestamp"),
             index := some vs2 }

/-- Embedding of the Python str.lower method: lowercase each character. -/
def lowerStr (s : String) : String :=
  String.mk (s.data.map Char.toLower)

/-- Line 110: rename every column to its lowercase form. -/
def lowerCols (df : DataFrame) : DataFrame :=
  { df with cols := df.cols.map (fun c => (lowerStr c.1, c.2)) }

/-- Required columns of line 113. -/
def requiredCols : List String := ["open", "high", "low", "close", "volume"]

/-- Line 114: all required columns present. -/
def hasRequired (df : DataFrame) : Bool :=
  requiredCols.all (fun c => df.colNames.contains c)

/-- Lines 101 to 124: build the frame from the candle collection, convert
and install the timestamp index, lowercase the columns, check the required
columns.  The two none branches are exceptions raised inside the try block
(pandas ValueError on ragged columns, to_datetime failure), caught at line
131 and returned as the generic failure dictionary. -/
def parseCandles (instrument : String) (cd : CandleData) : FetchResult :=
  match cd.toDF.bind applyTimestamp with
  | none => failRes "Error fetching data: exception"
  | some df1 =>
    if hasRequired (lowerCols df1) then
      { success := true, error := none, data := some (lowerCols df1),
        instrument := some instrument }
    else
      failRes "Missing required columns in data"

/-- Embedding of DhanDataFetcher.fetch_intraday_data.  The second component
records whether the network request of line 82 was issued.  The date
defaulting of lines 58 to 61 only shapes the outbound request and is
absorbed into the NetResult parameter. -/
def fetchIntradayData (instrument : String) (net : NetResult) :
    FetchResult × Bool :=
  if instruments.contains instrument then
    match net with
    | .exn m => (failRes ("Error fetching data: " ++ m), true)
    | .response sc body text =>
      if sc ≠ 200 then
        (failRes ("API " ++ toString sc ++ ": " ++ text.take 200), true)
      else
        match body with
        | none => (failRes "Error fetching data: exception", true)
        | some data =>
          if (data.status == some "failure") || truthyCode data.errorCode then
            (failRes ("API: " ++ apiMsg data), true)
          else
            match lookupKey "data" data.fields with
            | some cd =>
              if 0 < cd.len then
                (parseCandles instrument cd, true)
              else
                (failRes "No data returned from API", true)
            | none => (failRes "No data returned from API", true)
  else
    (failRes ("Unknown instrument: " ++ instrument), false)

/-- Result dictionary of fetch_quote: on success the decoded body is
returned as is, with no inspection of provider-level error markers. -/
structure QuoteResult where
  success : Bool
  error : Option String
  data : Option ApiResponse
  deriving DecidableEq, Repr

/-- Embedding of DhanDataFetcher.fetch_quote; the second component records
whether the network request of line 168 was issued. -/
def fetchQuote (instrument : String) (net : NetResult) : QuoteResult × Bool :=
  if instruments.contains instrument then
    match net with
    | .exn m =>
      ({ success := false, error := some ("Error fetching quote: " ++ m),
         data := none }, true)
    | .response sc body _ =>
      if sc = 200 then
        match body with
        | none =>
          ({ success := false,
             error := some "Error fetching quote: exception",
             data := none }, true)
        | some d => ({ success := true, error := none, data := some d }, true)
      else
        ({ success := false,
           error := some ("API request failed: " ++ toString sc),
           data := none }, true)
  else
    ({ success := false, error := some ("Unknown instrument: " ++ instrument),
       data := none }, false)

/-- One logical candle of a test payload, used to build concrete and
universally quantified provider responses in theorem statements. -/
structure RawCandle where
  op : ℚ
  hi : ℚ
  lo : ℚ
  cl : ℚ
  vol : ℚ
  ts : ℚ
  deriving DecidableEq, Repr

/-- Row-record form of one candle, full lowercase field names. -/
def rowOf (rc : RawCandle) : List (String × Val) :=
  [("open", .num rc.op), ("high", .num rc.hi), ("low", .num rc.lo),
   ("close", .num rc.cl), ("volume", .num rc.vol), ("timestamp", .num rc.ts)]

/-- Candle collection as an array of row records. -/
def rowsPayload (cs : List RawCandle) : CandleData :=
  .recs (cs.map rowOf)

/-- Candle collection as parallel columnar arrays, in the same field
order. -/
def colsPayload (cs : List RawCandle) : CandleData :=
  .cols [("open", cs.map (fun c => .num c.op)),
         ("high", cs.map (fun c => .num c.hi)),
         ("low", cs.map (fun c => .num c.lo)),
         ("close", cs.map (fun c => .num c.cl)),
         ("volume", cs.map (fun c => .num c.vol)),
         ("timestamp", cs.map (fun c => .num c.ts))]

/-- Well-formed 200 response whose body carries the candle collection under
the given top-level key and no error markers. -/
def okNet (key : String) (cd : CandleData) : NetResult :=
  .response 200 (some { status := none, errorCode := none, message := none,
                        fields := [(key, cd)] }) ""

/-- Columns of the frame a successful fetch returns for these candles: the
payload values in payload order, the timestamp column moved to the index. -/
def expectedCols (cs : List RawCandle) : List (String × List Val) :=
  [("open", cs.map (fun c => .num c.op)),
   ("high", cs.map (fun c => .num c.hi)),
   ("low", cs.map (fun c => .num c.lo)),
   ("close", cs.map (fun c => .num c.cl)),
   ("volume", cs.map (fun c => .num c.vol))]

/-- Frame a successful fetch returns for these candles: payload order is
preserved, the index is the IST conversion of the raw timestamps. -/
def expectedDF (cs : List RawCandle) : DataFrame :=
  { cols := expectedCols cs, index := some (cs.map (fun c => .tsIST c.ts)) }

/-- Data frame that pd.DataFrame builds from a full payload, before the
timestamp conversion: all six columns in canonical order, default index. -/
def stdFrame (l : List RawCandle) : DataFrame :=
  { cols := [("open", l.map (fun d => .num d.op)),
             ("high", l.map (fun d => .num d.hi)),
             ("low", l.map (fun d => .num d.lo)),
             ("close", l.map (fun d => .num d.cl)),
             ("volume", l.map (fun d => .num d.vol)),
             ("timestamp", l.map (fun d => .num d.ts))],
    index := none }

/-- Row-record form of one candle with no volume field. -/
def rowNoVol (rc : RawCandle) : List (String × Val) :=
  [("open", .num rc.op), ("high", .num rc.hi), ("low", .num rc.lo),
   ("close", .num rc.cl), ("timestamp", .num rc.ts)]

/-- Candle collection of row records that resolve open, high, low and
close but carry no volume field. -/
def noVolPayload (cs : List RawCandle) : CandleData :=
  .recs (cs.map rowNoVol)

/-- Data frame that pd.DataFrame builds from a payload without volume. -/
def noVolFrame (l : List RawCandle) : DataFrame :=
  { cols := [("open", l.map (fun d => .num d.op)),
             ("high", l.map (fun d => .num d.hi)),
             ("low", l.map (fun d => .num d.lo)),
             ("close", l.map (fun d => .num d.cl)),
             ("timestamp", l.map (fun d => .num d.ts))],
    index := none }

/-- Signal record, restricted to the fields the dedup and dispatch code of
streamlit_app.py reads (lines 286 to 303): the remaining fields only feed
message rendering. -/
structure Signal where
  instrument : String
  signalType : String
  deriving DecidableEq, Repr

/-- Line 288: dedup key of a signal. -/
def dedupKey (s : Signal) : String :=
  s.instrument ++ "_" ++ s.signalType

/-- Session state touched by the dispatch loop: the signal log (most recent
first) and the map from dedup key to last dispatch time.  Times are epoch
seconds as rationals; the cooldown setting is in minutes, and the source
divides the elapsed seconds by 60 before comparing. -/
structure BotState where
  signals : List Signal
  sentSignals : List (String × ℚ)
  deriving DecidableEq, Repr

/-- Lines 290 to 295: a candidate is suppressed when an entry exists for
its key and the elapsed minutes are strictly below the cooldown setting. -/
def shouldSuppress (sent : List (String × ℚ)) (key : String)
    (now window : ℚ) : Bool :=
  match lookupKey key sent with
  | none => false
  | some last => decide ((now - last) / 60 < window)

/-- Python dict assignment on the sent-signals map: overwrite the existing
binding in place, or append a new one. -/
def updateSent (sent : List (String × ℚ)) (key : String) (t : ℚ) :
    List (String × ℚ) :=
  if (lookupKey key sent).isSome then
    sent.map (fun kv => if kv.1 = key then (key, t) else kv)
  else
    sent ++ [(key, t)]

/-- Lines 286 to 303, the body of the per-signal loop: check the cooldown
and continue when suppressed; otherwise prepend the signal to the log,
record the dispatch time, and attempt the Telegram send only when
auto-send is on and a bot is configured.  The returned Bool is whether the
Telegram message was actually delivered: sendOk is the Bool returned by
send_telegram_signal (which swallows its own exceptions), and the source
discards it. -/
def processSignal (st : BotState) (sig : Signal) (now window : ℚ)
    (autoTelegram botConfigured sendOk : Bool) : BotState × Bool :=
  let key := dedupKey sig
  if shouldSuppress st.sentSignals key now window then
    (st, false)
  else
    let st2 : BotState :=
      { signals := sig :: st.signals,
        sentSignals := updateSent st.sentSignals key now }
    if autoTelegram && botConfigured then (st2, sendOk) else (st2, false)

/-- Outcome of running a piece of Python code: a value, or a raised
exception. -/
inductive PyOutcome (α : Type) where
  | ok (a : α)
  | exn (msg : String)
  deriving DecidableEq, Repr

/-- Embedding of StreamlitSignalBot.fetch_and_analyze (lines 141 to 170):
the fetch outcome covers the fetch_intraday_data call (exn models an
exception raised before or during it), and the detector is an opaque
function of the frame that may itself raise.  Every exception is caught by
the except branch at line 168, which returns the empty list. -/
def fetchAndAnalyze (fetchOut : PyOutcome FetchResult)
    (detect : DataFrame → PyOutcome (List Signal)) : List Signal :=
  match fetchOut with
  | .exn _ => []
  | .ok r =>
    if !r.success then
      []
    else
      match r.data with
      | none => []
      | some df =>
        if df.nrows < 100 then
          []
        else
          match detect df with
          | .exn _ => []
          | .ok sigs => sigs

/-- One scan over the configured instruments (the for loop at line 283):
each instrument is processed independently by fetch_and_analyze. -/
def scanCycle
    (insts : List (PyOutcome FetchResult × (DataFrame → PyOutcome (List Signal)))) :
    List (List Signal) :=
  insts.map (fun p => fetchAndAnalyze p.1 p.2)

/-- Outcomes that count as a fetch failure: an exception raised before or
during the fetch, or a fetch result whose success flag is false. -/
def fetchFails : PyOutcome FetchResult → Prop
  | .exn _ => True
  | .ok r => r.success = false

/-- Per-instrument failure of one scan step, covering every failure mode
of the claim: a fetch or normalization failure (fetchFails), or a
detection failure, the detector raising on the frame the fetch
delivered. -/
def instrumentFails (f : PyOutcome FetchResult)
    (d : DataFrame → PyOutcome (List Signal)) : Prop :=
  fetchFails f ∨
    ∃ r df m, f = .ok r ∧ r.data = some df ∧ d df = .exn m

/-- Frame with 100 rows and no columns, a minimal frame long enough for
detection; used as concrete scan-cycle input in theorem statements. -/
def bigFrame : DataFrame :=
  { cols := [], index := some (List.replicate 100 (Val.num 0)) }

/-- Successful fetch result carrying bigFrame, used as concrete
scan-cycle input in theorem statements. -/
def bigOkRes : FetchResult :=
  { success := true, error := none, data := some bigFrame,
    instrument := some "NIFTY" }

/-- Two-instrument scan cycle whose fetches fail benignly, used as
concrete input in theorem statements. -/
def twoInstCycle :
    List (PyOutcome FetchResult × (DataFrame → PyOutcome (List Signal))) :=
  [(PyOutcome.ok (failRes "e"), fun _ => PyOutcome.ok []),
   (PyOutcome.ok (failRes "e"), fun _ => PyOutcome.ok [])]

/-! Helper lemmas about the embedding, shared by the claim theorems. -/

/-- Canonical key order of a full row record. -/
def stdKeys : List String :=
  ["open", "high", "low", "close", "volume", "timestamp"]

/-- Key order of a row record without volume. -/
def noVolKeys : List String :=
  ["open", "high", "low", "close", "timestamp"]

theorem insertKeys_of_subset (r : List (String × Val)) (acc : List String)
    (h : ∀ kv ∈ r, kv.1 ∈ acc) : insertKeys acc r = acc := by
  induction r generalizing acc with
  | nil => rfl
  | cons kv rest ih =>
    have hk : kv.1 ∈ acc := h kv (List.mem_cons_self kv rest)
    show List.foldl _ (if kv.1 ∈ acc then acc else acc ++ [kv.1]) rest = acc
    rw [if_pos hk]
    exact ih acc (fun x hx => h x (List.mem_cons_of_mem kv hx))

theorem foldl_insertKeys_fixed (rows : List (List (String × Val)))
    (acc : List String) (h : ∀ r ∈ rows, ∀ kv ∈ r, kv.1 ∈ acc) :
    rows.foldl insertKeys acc = acc := by
  induction rows with
  | nil => rfl
  | cons r rest ih =>
    rw [List.foldl_cons,
      insertKeys_of_subset r acc (h r (List.mem_cons_self r rest))]
    exact ih (fun x hx => h x (List.mem_cons_of_mem r hx))

theorem keysUnion_rows (c : RawCandle) (cs : List RawCandle) :
    keysUnion ((c :: cs).map rowOf) = stdKeys := by
  have h1 : insertKeys [] (rowOf c) = stdKeys := rfl
  show List.foldl insertKeys (insertKeys [] (rowOf c)) (cs.map rowOf) = stdKeys
  rw [h1]
  apply foldl_insertKeys_fixed
  intro r hr kv hkv
  obtain ⟨d, _, rfl⟩ := List.mem_map.mp hr
  simp only [rowOf, List.mem_cons, List.not_mem_nil, or_false] at hkv
  rcases hkv with rfl | rfl | rfl | rfl | rfl | rfl <;> simp [stdKeys]

theorem map_lookup_rowOf (l : List RawCandle) (k : String) (g : RawCandle → Val)
    (hg : ∀ d, (lookupKey k (rowOf d)).getD .nan = g d) :
    (l.map rowOf).map (fun r => (lookupKey k r).getD .nan) = l.map g := by
  rw [List.map_map]
  exact List.map_congr_left (fun d _ => hg d)

theorem ofRecords_rows (c : RawCandle) (cs : List RawCandle) :
    DataFrame.ofRecords ((c :: cs).map rowOf) = stdFrame (c :: cs) := by
  unfold DataFrame.ofRecords
  rw [keysUnion_rows]
  simp only [stdKeys, List.map_cons, List.map_nil]
  rw [map_lookup_rowOf cs "open" _ (fun d => rfl),
    map_lookup_rowOf cs "high" _ (fun d => rfl),
    map_lookup_rowOf cs "low" _ (fun d => rfl),
    map_lookup_rowOf cs "close" _ (fun d => rfl),
    map_lookup_rowOf cs "volume" _ (fun d => rfl),
    map_lookup_rowOf cs "timestamp" _ (fun d => rfl)]
  rfl

theorem convertCol_num (l : List RawCandle) (f : RawCandle → ℚ) :
    convertCol (l.map (fun d => .num (f d))) =
      some (l.map (fun d => .tsIST (f d))) := by
  induction l with
  | nil => rfl
  | cons d rest ih =>
    show (match toDatetimeIST (.num (f d)), convertCol (rest.map fun d => .num (f d)) with
          | some w, some ws => some (w :: ws)
          | _, _ => none) = _
    rw [ih]
    rfl

theorem applyTimestamp_stdFrame (l : List RawCandle) :
    applyTimestamp (stdFrame l) =
      some { cols := expectedCols l,
             index := some (l.map (fun d => .tsIST d.ts)) } := by
  have h1 : applyTimestamp (stdFrame l) =
      (match convertCol (l.map (fun d => Val.num d.ts)) with
       | none => none
       | some vs2 => some { cols := expectedCols l, index := some vs2 }) := rfl
  rw [h1, convertCol_num l (fun d => d.ts)]

theorem parse_of_stdFrame (inst : String) (cd : CandleData) (l : List RawCandle)
    (h : cd.toDF = some (stdFrame l)) :
    parseCandles inst cd =
      { success := true, error := none, data := some (expectedDF l),
        instrument := some inst } := by
  unfold parseCandles
  rw [h, show (some (stdFrame l)).bind applyTimestamp =
    applyTimestamp (stdFrame l) from rfl, applyTimestamp_stdFrame]
  rfl

theorem toDF_rows (c : RawCandle) (cs : List RawCandle) :
    (rowsPayload (c :: cs)).toDF = some (stdFrame (c :: cs)) := by
  show some (DataFrame.ofRecords ((c :: cs).map rowOf)) = _
  rw [ofRecords_rows]

theorem toDF_cols (c : RawCandle) (cs : List RawCandle) :
    (colsPayload (c :: cs)).toDF = some (stdFrame (c :: cs)) := by
  simp [colsPayload, CandleData.toDF, DataFrame.ofColumns, List.length_map,
    stdFrame]

theorem fetch_ok_net (cd : CandleData) (hlen : 0 < cd.len) :
    fetchIntradayData "NIFTY" (okNet "data" cd) =
      (parseCandles "NIFTY" cd, true) := by
  simp [fetchIntradayData, okNet, instruments, truthyCode, lookupKey, hlen]

theorem fetchRows_eval (c : RawCandle) (cs : List RawCandle) :
    fetchIntradayData "NIFTY" (okNet "data" (rowsPayload (c :: cs))) =
      ({ success := true, error := none, data := some (expectedDF (c :: cs)),
         instrument := some "NIFTY" }, true) := by
  rw [fetch_ok_net _ (by simp [rowsPayload, CandleData.len]),
    parse_of_stdFrame "NIFTY" _ (c :: cs) (toDF_rows c cs)]

theorem fetchCols_eval (c : RawCandle) (cs : List RawCandle) :
    fetchIntradayData "NIFTY" (okNet "data" (colsPayload (c :: cs))) =
      ({ success := true, error := none, data := some (expectedDF (c :: cs)),
         instrument := some "NIFTY" }, true) := by
  rw [fetch_ok_net _ (by simp [colsPayload, CandleData.len]),
    parse_of_stdFrame "NIFTY" _ (c :: cs) (toDF_cols c cs)]

theorem keysUnion_rowNoVol (c : RawCandle) (cs : List RawCandle) :
    keysUnion ((c :: cs).map rowNoVol) = noVolKeys := by
  have h1 : insertKeys [] (rowNoVol c) = noVolKeys := rfl
  show List.foldl insertKeys (insertKeys [] (rowNoVol c)) (cs.map rowNoVol) =
    noVolKeys
  rw [h1]
  apply foldl_insertKeys_fixed
  intro r hr kv hkv
  obtain ⟨d, _, rfl⟩ := List.mem_map.mp hr
  simp only [rowNoVol, List.mem_cons, List.not_mem_nil, or_false] at hkv
  rcases hkv with rfl | rfl | rfl | rfl | rfl <;> simp [noVolKeys]

theorem map_lookup_rowNoVol (l : List RawCandle) (k : String)
    (g : RawCandle → Val)
    (hg : ∀ d, (lookupKey k (rowNoVol d)).getD .nan = g d) :
    (l.map rowNoVol).map (fun r => (lookupKey k r).getD .nan) = l.map g := by
  rw [List.map_map]
  exact List.map_congr_left (fun d _ => hg d)

theorem ofRecords_rowNoVol (c : RawCandle) (cs : List RawCandle) :
    DataFrame.ofRecords ((c :: cs).map rowNoVol) = noVolFrame (c :: cs) := by
  unfold DataFrame.ofRecords
  rw [keysUnion_rowNoVol]
  simp only [noVolKeys, List.map_cons, List.map_nil]
  rw [map_lookup_rowNoVol cs "open" _ (fun d => rfl),
    map_lookup_rowNoVol cs "high" _ (fun d => rfl),
    map_lookup_rowNoVol cs "low" _ (fun d => rfl),
    map_lookup_rowNoVol cs "close" _ (fun d => rfl),
    map_lookup_rowNoVol cs "timestamp" _ (fun d => rfl)]
  rfl

theorem applyTimestamp_noVolFrame (l : List RawCandle) :
    applyTimestamp (noVolFrame l) =
      some { cols := [("open", l.map (fun d => .num d.op)),
                      ("high", l.map (fun d => .num d.hi)),
                      ("low", l.map (fun d => .num d.lo)),
                      ("close", l.map (fun d => .num d.cl))],
             index := some (l.map (fun d => .tsIST d.ts)) } := by
  have h1 : applyTimestamp (noVolFrame l) =
      (match convertCol (l.map (fun d => Val.num d.ts)) with
       | none => none
       | some vs2 =>
         some { cols := [("open", l.map (fun d => .num d.op)),
                         ("high", l.map (fun d => .num d.hi)),
                         ("low", l.map (fun d => .num d.lo)),
                         ("close", l.map (fun d => .num d.cl))],
                index := some vs2 }) := rfl
  rw [h1, convertCol_num l (fun d => d.ts)]

theorem parse_noVol (c : RawCandle) (cs : List RawCandle) :
    parseCandles "NIFTY" (noVolPayload (c :: cs)) =
      failRes "Missing required columns in data" := by
  have h : (noVolPayload (c :: cs)).toDF = some (noVolFrame (c :: cs)) := by
    show some (DataFrame.ofRecords ((c :: cs).map rowNoVol)) = _
    rw [ofRecords_rowNoVol]
  unfold parseCandles
  rw [h, show (some (noVolFrame (c :: cs))).bind applyTimestamp =
    applyTimestamp (noVolFrame (c :: cs)) from rfl, applyTimestamp_noVolFrame]
  rfl

theorem lookupKey_map_overwrite (sent : List (String × ℚ)) (key : String)
    (t : ℚ) (h : (lookupKey key sent).isSome = true) :
    lookupKey key (sent.map (fun kv => if kv.1 = key then (key, t) else kv)) =
      some t := by
  induction sent with
  | nil => simp [lookupKey] at h
  | cons kv rest ih =>
    by_cases hk : kv.1 = key
    · simp [lookupKey, hk]
    · have h2 : (lookupKey key rest).isSome = true := by
        simpa [lookupKey, hk] using h
      simp [lookupKey, hk, ih h2]

theorem lookupKey_append_new (sent : List (String × ℚ)) (key : String)
    (t : ℚ) (h : lookupKey key sent = none) :
    lookupKey key (sent ++ [(key, t)]) = some t := by
  induction sent with
  | nil => simp [lookupKey]
  | cons kv rest ih =>
    by_cases hk : kv.1 = key
    · simp [lookupKey, hk] at h
    · simp only [List.cons_append, lookupKey, if_neg hk]
      exact ih (by simpa [lookupKey, hk] using h)

theorem lookupKey_updateSent (sent : List (String × ℚ)) (key : String)
    (t : ℚ) : lookupKey key (updateSent sent key t) = some t := by
  cases ho : lookupKey key sent with
  | none =>
    rw [updateSent, if_neg (by simp [ho])]
    exact lookupKey_append_new sent key t ho
  | some v =>
    rw [updateSent, if_pos (by simp [ho])]
    exact lookupKey_map_overwrite sent key t (by simp [ho])

theorem fetchAndAnalyze_fail (f : PyOutcome FetchResult)
    (d : DataFrame → PyOutcome (List Signal)) (hf : fetchFails f) :
    fetchAndAnalyze f d = [] := by
  cases f with
  | exn m => rfl
  | ok r =>
    have hs : r.success = false := hf
    simp [fetchAndAnalyze, hs]

theorem fetchAndAnalyze_instFail (f : PyOutcome FetchResult)
    (d : DataFrame → PyOutcome (List Signal)) (hf : instrumentFails f d) :
    fetchAndAnalyze f d = [] := by
  rcases hf with hf | ⟨r, df, m, rfl, hdf, hexn⟩
  · exact fetchAndAnalyze_fail f d hf
  · cases hsucc : r.success with
    | false => simp [fetchAndAnalyze, hsucc]
    | true =>
      by_cases hn : df.nrows < 100 <;>
        simp [fetchAndAnalyze, hsucc, hdf, hn, hexn]

theorem toDF_index_none (cd : CandleData) (df0 : DataFrame)
    (h : cd.toDF = some df0) : df0.index = none := by
  cases cd with
  | recs rows =>
    obtain rfl : DataFrame.ofRecords rows = df0 := by
      simpa [CandleData.toDF] using h
    rfl
  | cols cs =>
    have h2 : DataFrame.ofColumns cs = some df0 := h
    unfold DataFrame.ofColumns at h2
    split at h2
    · obtain rfl := Option.some.inj h2
      rfl
    · split at h2
      · obtain rfl := Option.some.inj h2
        rfl
      · exact Option.noConfusion h2

theorem applyTimestamp_index (df0 df1 : DataFrame) (h0 : df0.index = none)
    (h : applyTimestamp df0 = some df1) :
    df1.index.isSome = (lookupKey "timestamp" df0.cols).isSome := by
  unfold applyTimestamp at h
  split at h
  · rename_i heq
    obtain rfl := Option.some.inj h
    simp [heq, h0]
  · rename_i vs heq
    split at h
    · exact Option.noConfusion h
    · rename_i vs2 heq2
      obtain rfl := (Option.some.inj h).symm
      simp [heq]

theorem parse_success_frame (inst : String) (cd : CandleData)
    (hs : (parseCandles inst cd).success = true) :
    ∃ df0 df, cd.toDF = some df0 ∧
      (parseCandles inst cd).data = some df ∧ hasRequired df = true ∧
      (∃ ns : List String, df.colNames = ns.map lowerStr) ∧
      df.index.isSome = (lookupKey "timestamp" df0.cols).isSome := by
  cases hb : cd.toDF.bind applyTimestamp with
  | none =>
    have he : parseCandles inst cd =
        failRes "Error fetching data: exception" := by
      unfold parseCandles
      rw [hb]
    rw [he] at hs
    simp [failRes] at hs
  | some df1 =>
    obtain ⟨df0, h0, h1⟩ := Option.bind_eq_some.mp hb
    by_cases hr : hasRequired (lowerCols df1) = true
    · have he : parseCandles inst cd =
          { success := true, error := none, data := some (lowerCols df1),
            instrument := some inst } := by
        unfold parseCandles
        rw [hb]
        simp [hr]
      rw [he]
      refine ⟨df0, lowerCols df1, h0, rfl, hr,
        ⟨df1.colNames, by simp [lowerCols, DataFrame.colNames, List.map_map]⟩,
        ?_⟩
      show df1.index.isSome = _
      exact applyTimestamp_index df0 df1 (toDF_index_none cd df0 h0) h1
    · have he : parseCandles inst cd =
          failRes "Missing required columns in data" := by
        unfold parseCandles
        rw [hb]
        simp [hr]
      rw [he] at hs
      simp [failRes] at hs

theorem fetch_success_parse (inst : String) (net : NetResult)
    (hs : ((fetchIntradayData inst net).1).success = true) :
    ∃ cd, (fetchIntradayData inst net).1 = parseCandles inst cd := by
  by_cases hi : inst ∈ instruments
  · cases net with
    | exn m =>
      have he : fetchIntradayData inst (.exn m) =
          (failRes ("Error fetching data: " ++ m), true) := by
        simp [fetchIntradayData, hi]
      rw [he] at hs
      simp [failRes] at hs
    | response sc body text =>
      by_cases h200 : sc = 200
      · cases body with
        | none =>
          have he : fetchIntradayData inst (.response sc none text) =
              (failRes "Error fetching data: exception", true) := by
            simp [fetchIntradayData, hi, h200]
          rw [he] at hs
          simp [failRes] at hs
        | some d =>
          by_cases hm : d.status = some "failure" ∨
              truthyCode d.errorCode = true
          · have he : fetchIntradayData inst (.response sc (some d) text) =
                (failRes ("API: " ++ apiMsg d), true) := by
              simp [fetchIntradayData, hi, h200, hm]
            rw [he] at hs
            simp [failRes] at hs
          · cases hd : lookupKey "data" d.fields with
            | none =>
              have he : fetchIntradayData inst (.response sc (some d) text) =
                  (failRes "No data returned from API", true) := by
                simp [fetchIntradayData, hi, h200, hm, hd]
              rw [he] at hs
              simp [failRes] at hs
            | some cd =>
              by_cases hl : 0 < cd.len
              · have he : fetchIntradayData inst (.response sc (some d) text) =
                    (parseCandles inst cd, true) := by
                  simp [fetchIntradayData, hi, h200, hm, hd, hl]
                exact ⟨cd, by rw [he]⟩
              · have he : fetchIntradayData inst (.response sc (some d) text) =
                    (failRes "No data returned from API", true) := by
                  simp [fetchIntradayData, hi, h200, hm, hd, hl]
                rw [he] at hs
                simp [failRes] at hs
      · have he : fetchIntradayData inst (.response sc body text) =
            (failRes ("API " ++ toString sc ++ ": " ++ text.take 200),
              true) := by
          simp [fetchIntradayData, hi, h200]
        rw [he] at hs
        simp [failRes] at hs
  · have he : fetchIntradayData inst net =
        (failRes ("Unknown instrument: " ++ inst), false) := by
      simp [fetchIntradayData, hi]
    rw [he] at hs
    simp [failRes] at hs

/-! Claim theorems. -/

/-- Claim C1, counterexample: a successful normalization of a payload with
two rows carrying the same timestamp (the first of which also violates the
candle invariant, high 90 below low 99) keeps both rows, so the returned
index holds a duplicated timestamp instead of strictly increasing ones with
the later row winning. -/
theorem c1_counterexample :
    ((fetchIntradayData "NIFTY" (okNet "data" (rowsPayload
        [⟨100, 90, 99, 101, 10, 1000⟩,
         ⟨100, 102, 99, 105, 20, 1000⟩]))).1).success = true ∧
    ((fetchIntradayData "NIFTY" (okNet "data" (rowsPayload
        [⟨100, 90, 99, 101, 10, 1000⟩,
         ⟨100, 102, 99, 105, 20, 1000⟩]))).1).data.map DataFrame.index =
      some (some [Val.tsIST 1000, Val.tsIST 1000]) := by
  decide

/-- Claim C1 (amended): a successful normalization returns the payload rows
exactly as supplied, in payload order, with the timestamp column converted
to IST and installed as the index; no sorting, deduplication or candle
invariant validation takes place, so duplicate or decreasing timestamps and
invariant-violating candles pass through unchanged. -/
theorem c1_normalization_preserves_rows (c : RawCandle) (cs : List RawCandle) :
    fetchIntradayData "NIFTY" (okNet "data" (rowsPayload (c :: cs))) =
      ({ success := true, error := none, data := some (expectedDF (c :: cs)),
         instrument := some "NIFTY" }, true) :=
  fetchRows_eval c cs

/-- Claim C2, counterexample: a well-formed candle collection under the
top-level key candles is rejected with the no-data error, so the accepted
key set of the claim (data, candles, ohlc) is wrong. -/
theorem c2_counterexample :
    (fetchIntradayData "NIFTY" (okNet "candles"
      (rowsPayload [⟨100, 102, 99, 101, 10, 1000⟩]))).1 =
      failRes "No data returned from API" := by
  decide

/-- Claim C2 (amended): only the top-level key data is accepted; for that
key, a row-record payload and a columnar payload carrying the same logical
candles produce identical results. -/
theorem c2_shape_invariance (c : RawCandle) (cs : List RawCandle) :
    fetchIntradayData "NIFTY" (okNet "data" (rowsPayload (c :: cs))) =
      fetchIntradayData "NIFTY" (okNet "data" (colsPayload (c :: cs))) := by
  rw [fetchRows_eval, fetchCols_eval]

/-- Claim C3, counterexample: a payload whose single row resolves open,
high, low and close but carries no volume field is rejected instead of
succeeding with volume 0. -/
theorem c3_counterexample :
    (fetchIntradayData "NIFTY" (okNet "data"
      (noVolPayload [⟨100, 102, 99, 101, 0, 1000⟩]))).1 =
      failRes "Missing required columns in data" := by
  decide

/-- Claim C3 (amended): every nonempty payload whose rows resolve open,
high, low and close but carry no volume field fails with the
missing-required-columns error; volume is required, not defaulted to 0. -/
theorem c3_missing_volume_fails (c : RawCandle) (cs : List RawCandle) :
    (fetchIntradayData "NIFTY" (okNet "data" (noVolPayload (c :: cs)))).1 =
      failRes "Missing required columns in data" := by
  rw [fetch_ok_net _ (by simp [noVolPayload, CandleData.len])]
  show parseCandles "NIFTY" (noVolPayload (c :: cs)) = _
  exact parse_noVol c cs

/-- Claim C4: with an entry for the dedup key at time t0 (epoch seconds)
and a cooldown window of W minutes, a candidate at time t with
t - t0 < 60 * W is suppressed, and a candidate at exactly t0 + 60 * W is
not suppressed: the window is an exclusive upper bound, as the source
compares the elapsed minutes strictly below the window. -/
theorem c4_cooldown_boundary (sent : List (String × ℚ)) (key : String)
    (t0 t W : ℚ) (hk : lookupKey key sent = some t0) :
    (t - t0 < 60 * W → shouldSuppress sent key t W = true) ∧
    shouldSuppress sent key (t0 + 60 * W) W = false := by
  unfold shouldSuppress
  rw [hk]
  constructor
  · intro h
    simp only [decide_eq_true_eq]
    rw [div_lt_iff₀ (by norm_num : (0 : ℚ) < 60)]
    linarith
  · simp only [decide_eq_false_iff_not]
    have h60 : (t0 + 60 * W - t0) / 60 = W := by ring
    rw [h60]
    exact lt_irrefl W

/-- Claim C4 witness at a concrete state: entry at 1000 seconds, window 15
minutes; a candidate at 1500 seconds is suppressed and one at exactly
1000 + 60 * 15 seconds is not. -/
theorem c4_witness :
    shouldSuppress [("NIFTY_BUY", (1000 : ℚ))] "NIFTY_BUY" 1500 15 = true ∧
    shouldSuppress [("NIFTY_BUY", (1000 : ℚ))] "NIFTY_BUY"
      (1000 + 60 * 15) 15 = false :=
  ⟨(c4_cooldown_boundary [("NIFTY_BUY", (1000 : ℚ))] "NIFTY_BUY" 1000
      1500 15 rfl).1 (by norm_num),
   (c4_cooldown_boundary [("NIFTY_BUY", (1000 : ℚ))] "NIFTY_BUY" 1000
      (1000 + 60 * 15) 15 rfl).2⟩

/-- Claim C5: a suppressed candidate leaves the whole session state
unchanged: the signal log and the stored timestamp of every dedup key are
exactly what they were before. -/
theorem c5_suppressed_state_unchanged (st : BotState) (sig : Signal)
    (now W : ℚ) (a b s : Bool)
    (h : shouldSuppress st.sentSignals (dedupKey sig) now W = true) :
    (processSignal st sig now W a b s).1 = st := by
  simp [processSignal, h]

/-- Claim C5 witness: a suppressed BUY candidate at 1500 seconds leaves the
state with entry ("NIFTY_BUY", 1000) untouched. -/
theorem c5_witness :
    (processSignal ⟨[], [("NIFTY_BUY", (1000 : ℚ))]⟩ ⟨"NIFTY", "BUY"⟩
        1500 15 true true true).1 =
      ⟨[], [("NIFTY_BUY", (1000 : ℚ))]⟩ :=
  c5_suppressed_state_unchanged _ _ _ _ _ _ _ (by
    have happ : ("NIFTY" : String) ++ "_" ++ "BUY" = "NIFTY_BUY" := rfl
    norm_num [shouldSuppress, lookupKey, dedupKey, happ])

/-- Claim C6, counterexample: with Telegram auto-send off and no bot
configured, a non-suppressed signal is not dispatched (second component
false) yet its dispatch time is recorded in the cooldown map, so the
stored timestamp is updated without an actual dispatch. -/
theorem c6_counterexample :
    (processSignal ⟨[], []⟩ ⟨"NIFTY", "BUY"⟩ 1000 15 false false false).2 =
      false ∧
    (processSignal ⟨[], []⟩ ⟨"NIFTY", "BUY"⟩ 1000 15 false false
        false).1.sentSignals = [("NIFTY_BUY", 1000)] := by
  decide

/-- Claim C6 (amended): the cooldown timestamp of the dedup key is
recorded for every non-suppressed candidate, before and regardless of
whether the Telegram send is enabled, attempted or successful. -/
theorem c6_record_on_every_dispatch (st : BotState) (sig : Signal)
    (now W : ℚ) (a b s : Bool)
    (h : shouldSuppress st.sentSignals (dedupKey sig) now W = false) :
    lookupKey (dedupKey sig)
      (processSignal st sig now W a b s).1.sentSignals = some now := by
  by_cases hab : (a && b) = true <;>
    simp [processSignal, h, hab] <;>
    exact lookupKey_updateSent _ _ _

/-- Claim C6 witness: on the empty state the BUY candidate records its
dispatch time although the send is disabled. -/
theorem c6_witness :
    lookupKey (dedupKey ⟨"NIFTY", "BUY"⟩)
      (processSignal ⟨[], []⟩ ⟨"NIFTY", "BUY"⟩ 1000 15 false false
        false).1.sentSignals = some 1000 :=
  c6_record_on_every_dispatch _ _ _ _ _ _ _ (by decide)

/-- Claim C7, counterexample: a 200 quote response whose body carries an
explicit failure status and an error code is returned as a success with
the raw body, so the claim fails for fetch_quote. -/
theorem c7_counterexample :
    (fetchQuote "NIFTY" (.response 200
      (some ⟨some "failure", some "DH-901", some "bad range", []⟩) "")).1 =
      { success := true, error := none,
        data := some ⟨some "failure", some "DH-901", some "bad range", []⟩ } := by
  decide

/-- Claim C7 (amended): the body inspection is bound to status code
exactly 200, not to the 2xx class.  On a 200 response whose body carries a
provider-level error marker, fetch_intraday_data fails with the provider
message while fetch_quote returns success with the raw body without
inspecting the markers; on any other status code (201 included), both
functions take the transport-failure branch regardless of the body. -/
theorem c7_provider_error_marker (d : ApiResponse) (t : String) (sc : Nat)
    (hm : d.status = some "failure" ∨ truthyCode d.errorCode = true)
    (hsc : sc ≠ 200) :
    (fetchIntradayData "NIFTY" (.response 200 (some d) t)).1 =
      failRes ("API: " ++ apiMsg d) ∧
    (fetchQuote "NIFTY" (.response 200 (some d) t)).1 =
      { success := true, error := none, data := some d } ∧
    (fetchIntradayData "NIFTY" (.response sc (some d) t)).1 =
      failRes ("API " ++ toString sc ++ ": " ++ t.take 200) ∧
    (fetchQuote "NIFTY" (.response sc (some d) t)).1 =
      { success := false,
        error := some ("API request failed: " ++ toString sc),
        data := none } := by
  refine ⟨?_, ?_, ?_, ?_⟩
  · simp [fetchIntradayData, instruments, hm]
  · simp [fetchQuote, instruments]
  · simp [fetchIntradayData, instruments, hsc]
  · simp [fetchQuote, instruments, hsc]

set_option maxRecDepth 4096 in
/-- Claim C7 witness at a concrete provider-declared failure body, with
status codes 200 and 201. -/
theorem c7_witness :
    (fetchIntradayData "NIFTY" (.response 200
        (some ⟨some "failure", none, some "Invalid date range", []⟩) "")).1 =
      failRes "API: Invalid date range" ∧
    (fetchQuote "NIFTY" (.response 200
        (some ⟨some "failure", none, some "Invalid date range", []⟩) "")).1 =
      { success := true, error := none,
        data := some ⟨some "failure", none, some "Invalid date range", []⟩ } ∧
    (fetchIntradayData "NIFTY" (.response 201
        (some ⟨some "failure", none, some "Invalid date range", []⟩) "")).1 =
      failRes "API 201: " ∧
    (fetchQuote "NIFTY" (.response 201
        (some ⟨some "failure", none, some "Invalid date range", []⟩) "")).1 =
      { success := false, error := some "API request failed: 201",
        data := none } :=
  c7_provider_error_marker _ "" 201 (Or.inl rfl) (by decide)

/-- Claim C8: an instrument outside the configured map makes both
fetch_intraday_data and fetch_quote fail with the unknown-instrument error
and without issuing the network request (second component false). -/
theorem c8_unknown_instrument (inst : String) (net : NetResult)
    (h : instruments.contains inst = false) :
    fetchIntradayData inst net =
      (failRes ("Unknown instrument: " ++ inst), false) ∧
    fetchQuote inst net =
      ({ success := false, error := some ("Unknown instrument: " ++ inst),
         data := none }, false) := by
  have him : inst ∉ instruments := by simpa using h
  constructor <;> simp [fetchIntradayData, fetchQuote, him]

/-- Claim C8 witness at the unconfigured instrument DOW. -/
theorem c8_witness :
    fetchIntradayData "DOW" (.exn "boom") =
      (failRes "Unknown instrument: DOW", false) ∧
    fetchQuote "DOW" (.exn "boom") =
      ({ success := false, error := some "Unknown instrument: DOW",
         data := none }, false) :=
  c8_unknown_instrument "DOW" (.exn "boom") (by decide)

/-- Claim C9: replacing one instrument of a scan cycle by a failing step,
a fetch or normalization failure (an exception or an unsuccessful fetch
result) or a detection failure (the detector raising on the delivered
frame), keeps the cycle length, yields the empty signal list at that
position, and leaves the result of every other position unchanged. -/
theorem c9_scan_isolation
    (insts : List (PyOutcome FetchResult ×
      (DataFrame → PyOutcome (List Signal))))
    (i : Nat) (hi : i < insts.length) (f : PyOutcome FetchResult)
    (d : DataFrame → PyOutcome (List Signal)) (hf : instrumentFails f d)
    (j : Nat) (hj : j ≠ i) :
    (scanCycle (insts.set i (f, d))).length = insts.length ∧
    (scanCycle (insts.set i (f, d)))[i]? = some [] ∧
    (scanCycle (insts.set i (f, d)))[j]? = (scanCycle insts)[j]? := by
  have hmap : scanCycle (insts.set i (f, d)) =
      (scanCycle insts).set i (fetchAndAnalyze f d) := by
    simp [scanCycle, List.map_set]
  refine ⟨?_, ?_, ?_⟩
  · rw [hmap]
    simp [scanCycle]
  · rw [hmap, fetchAndAnalyze_instFail f d hf]
    exact List.getElem?_set_self (by simpa [scanCycle] using hi)
  · rw [hmap]
    exact List.getElem?_set_ne (Ne.symm hj)

/-- Claim C9 witness: a two-instrument cycle where the second step is
replaced by a successful 100-row fetch whose detector raises, the
detection-failure mode of the claim. -/
theorem c9_witness :
    (scanCycle (twoInstCycle.set 1
      (PyOutcome.ok bigOkRes, fun _ => PyOutcome.exn "boom"))).length = 2 ∧
    (scanCycle (twoInstCycle.set 1
      (PyOutcome.ok bigOkRes, fun _ => PyOutcome.exn "boom")))[1]? =
      some [] ∧
    (scanCycle (twoInstCycle.set 1
      (PyOutcome.ok bigOkRes, fun _ => PyOutcome.exn "boom")))[0]? =
      (scanCycle twoInstCycle)[0]? :=
  c9_scan_isolation twoInstCycle 1 (by decide) (PyOutcome.ok bigOkRes)
    (fun _ => PyOutcome.exn "boom")
    (Or.inr ⟨bigOkRes, bigFrame, "boom", rfl, rfl, rfl⟩)
    0 (by decide)

/-- Claim C10, counterexample: a payload whose rows carry no timestamp
field at all normalizes successfully, and the returned frame keeps the
default positional index instead of an IST timestamp index. -/
theorem c10_counterexample :
    ((fetchIntradayData "NIFTY" (okNet "data" (.recs [[("open", .num 1),
        ("high", .num 2), ("low", .num 0), ("close", .num 1),
        ("volume", .num 5)]]))).1).success = true ∧
    ((fetchIntradayData "NIFTY" (okNet "data" (.recs [[("open", .num 1),
        ("high", .num 2), ("low", .num 0), ("close", .num 1),
        ("volume", .num 5)]]))).1).data.map DataFrame.index = some none := by
  decide

/-- Claim C10 (amended): the embedded fetch functions are total, and every
successful fetch_intraday_data result came through the candle parser and
carries a data frame whose columns all are lowercase renamings and include
open, high, low, close and volume; the frame has an installed index
exactly when the frame built from the raw candle collection had a column
named timestamp (in exact lowercase, as the source checks the column name
before renaming), and keeps the default positional index otherwise. -/
theorem c10_success_shape (inst : String) (net : NetResult)
    (hs : ((fetchIntradayData inst net).1).success = true) :
    ∃ cd df0 df, (fetchIntradayData inst net).1 = parseCandles inst cd ∧
      cd.toDF = some df0 ∧
      ((fetchIntradayData inst net).1).data = some df ∧
      hasRequired df = true ∧
      (∃ ns : List String, df.colNames = ns.map lowerStr) ∧
      df.index.isSome = (lookupKey "timestamp" df0.cols).isSome := by
  obtain ⟨cd, he⟩ := fetch_success_parse inst net hs
  rw [he] at hs ⊢
  obtain ⟨df0, df, h0, h2, h3, h4, h5⟩ := parse_success_frame inst cd hs
  exact ⟨cd, df0, df, rfl, h0, h2, h3, h4, h5⟩

/-- Claim C10 witness at a concrete successful fetch. -/
theorem c10_witness :
    ∃ cd df0 df,
      (fetchIntradayData "NIFTY" (okNet "data" (rowsPayload
        [⟨100, 102, 99, 101, 10, 1000⟩]))).1 = parseCandles "NIFTY" cd ∧
      cd.toDF = some df0 ∧
      ((fetchIntradayData "NIFTY" (okNet "data" (rowsPayload
        [⟨100, 102, 99, 101, 10, 1000⟩]))).1).data = some df ∧
      hasRequired df = true ∧
      (∃ ns : List String, df.colNames = ns.map lowerStr) ∧
      df.index.isSome = (lookupKey "timestamp" df0.cols).isSome :=
  c10_success_shape _ _ (by decide)

end Htf
